import Mathlib

/-!
# Verification of the consumer-credit decision engine (`src/app.py`)

Shallow embedding of the decision engine of `app.py`: the date/amount
utilities (`add_months`, `parse_fcfa`), the debt-ratio calculator
(`calc_endettement_simplifie`), the three rule groups
(`eval_step1_alerts`, `eval_step2_alerts`, `eval_step3_alerts`), the
final aggregator (`final_decision_text`) and the de-duplication of the
accumulated alert lists (`list(dict.fromkeys(...))` in
`run_streamlit_app`).

Python `float` values are modelled as `ℚ`; Python `int` as `ℤ`;
`datetime.date` as a `year/month/day` record; a possibly missing
dictionary entry as an `Option` field with `Option.getD` playing the
role of `dict.get(key, default)`.
-/

namespace ConsoApp

/-! ## Dates (`datetime.date`, `calendar`) -/

/-- A calendar date, as `datetime.date`: `year`, `month` (1–12), `day`. -/
structure Date where
  year : Nat
  month : Nat
  day : Nat
deriving DecidableEq, Repr

/-- `calendar.isleap y` : Gregorian leap-year test. -/
def isleap (y : Nat) : Bool :=
  (y % 4 == 0 && y % 100 != 0) || (y % 400 == 0)

/-- `calendar.monthrange(y, m)[1]` : number of days in month `m` of year `y`. -/
def monthrange (y m : Nat) : Nat :=
  if m = 2 then (if isleap y then 29 else 28)
  else if m = 4 ∨ m = 6 ∨ m = 9 ∨ m = 11 then 30
  else 31

/-- `add_months(sourcedate, months)` from `app.py` lines 50–57:
`months ≤ 0` returns the date unchanged; otherwise month index
arithmetic with year rollover and day clamped by `monthrange`. -/
def add_months (sourcedate : Date) (months : Int) : Date :=
  if months ≤ 0 then sourcedate
  else
    let m0 : Nat := sourcedate.month - 1 + months.toNat
    let year : Nat := sourcedate.year + m0 / 12
    let month : Nat := m0 % 12 + 1
    let day : Nat := min sourcedate.day (monthrange year month)
    ⟨year, month, day⟩

/-- Python `date.__lt__` : lexicographic comparison on (year, month, day). -/
def dateLt (a b : Date) : Bool :=
  (a.year < b.year) ||
  (a.year == b.year && ((a.month < b.month) ||
    (a.month == b.month && a.day < b.day)))

/-- Successor day in the Gregorian calendar (one step of `timedelta(days=1)`). -/
def nextDay (d : Date) : Date :=
  if d.day < monthrange d.year d.month then ⟨d.year, d.month, d.day + 1⟩
  else if d.month < 12 then ⟨d.year, d.month + 1, 1⟩
  else ⟨d.year + 1, 1, 1⟩

/-- `d + datetime.timedelta(days=n)` : iterate `nextDay`. -/
def addDays (d : Date) : Nat → Date
  | 0 => d
  | n + 1 => nextDay (addDays d n)

/-! ## Amount parsing (`parse_fcfa`) -/

/-- `re.sub(r"[^0-9]", "", s)` : keep only the characters `0`–`9`
(codepoints 48–57). -/
def digitsOf (s : String) : List Char :=
  s.toList.filter (fun c => 48 ≤ c.toNat && c.toNat ≤ 57)

/-- `int(cleaned)` on a list of digit characters, as a fold (result is an
`Int` so that the `val < 0` branch of the source can be stated). -/
def digitsVal (l : List Char) : Int :=
  l.foldl (fun acc c => acc * 10 + ((c.toNat : Int) - ('0'.toNat : Int))) 0

/-- `parse_fcfa(s)` from `app.py` lines 64–77, with `None` input modelled
as `none`. Returns `(value, ok)`. The `val < 0` test of the source is
kept verbatim so that its unreachability can be proved. -/
def parse_fcfa (s : Option String) : Int × Bool :=
  match s with
  | none => (0, false)
  | some str =>
    let cleaned := digitsOf str
    if cleaned = [] then (0, false)
    else
      let val := digitsVal cleaned
      if val < 0 then (0, false) else (val, true)

/-! ## Debt-ratio calculator -/

/-- `calc_endettement_simplifie` from `app.py` lines 93–99: returns
`(mensualite, taux)`; `(0, 0)` sentinel when `duree ≤ 0` or `revenu ≤ 0`. -/
def calc_endettement_simplifie (revenu_mensuel charges_mensuelles montant_demande duree_mois : Int) :
    ℚ × ℚ :=
  if duree_mois ≤ 0 ∨ revenu_mensuel ≤ 0 then (0, 0)
  else
    let mensualite : ℚ := (montant_demande : ℚ) / (duree_mois : ℚ)
    (mensualite, ((charges_mensuelles : ℚ) + mensualite) / (revenu_mensuel : ℚ))

/-! ## The applicant profile (`form_data` dictionary) -/

/-- The fields of `st.session_state.form_data` consulted by the rule
groups; a field absent from the dictionary is `none`. -/
structure Profile where
  taux_endettement : Option ℚ := none
  type_contrat : Option String := none
  date_fin_cdd : Option Date := none
  date_fin_credit : Option Date := none
  anciennete_compte : Option Int := none
  impayes_actuels : Option Bool := none
  impayes_anciens : Option Bool := none
  changement_employeur : Option Bool := none
  amelioration_employeur : Option Bool := none
  anciennete_employeur : Option Int := none
  employeur_statut : Option String := none

/-! ## Alert messages (verbatim from the source) -/

def msg_taux : String := "Alerte (rouge) : Endettement estimé supérieur à 33%"

def msg_cdd : String := "Alerte (rouge) : CDD se termine avant la fin du crédit demandé"

def msg_anc_compte : String := "Alerte (rouge) : Ancienneté du compte < 3 mois"

def msg_impayes_actuels : String := "Alerte (rouge) : Impayés actuels dans les 6 derniers mois"

def msg_limiter : String := "Alerte (orange) : Limiter le taux d\x27endettement à 25% car impayés anciens"

def msg_pas_changement : String := "Alerte (rouge) : Pas de changement chez l\x27employeur suite à des impayés anciens"

def msg_anc_employeur : String := "Alerte (rouge) : Ancienneté chez l’employeur < 3 mois"

def msg_statut_inconnu : String := "Alerte (orange) : Se renseigner sur l\x27état financier de l\x27employeur pour avis définitif"

def msg_employeur_risque : String := "Alerte (rouge) : Employeur connu avec un état financier risqué"

/-! ## Rule groups -/

/-- `eval_step1_alerts(data)` from `app.py` lines 104–114 (Group A:
financial/contract). `data.get("taux_endettement", 0.0)` is
`Option.getD _ 0`; `_ensure_date` is the identity on the already-typed
optional dates of the profile. -/
def eval_step1_alerts (data : Profile) : List String × List String :=
  let taux : ℚ := data.taux_endettement.getD 0
  let tauxAlerts : List String := if taux > 1/3 then [msg_taux] else []
  let cddAlerts : List String :=
    if data.type_contrat = some "CDD" then
      match data.date_fin_cdd, data.date_fin_credit with
      | some date_fin_cdd, some date_fin_credit =>
          if dateLt date_fin_cdd date_fin_credit then [msg_cdd] else []
      | _, _ => []
    else []
  (tauxAlerts ++ cddAlerts, [])

/-- `eval_step2_alerts(data)` from `app.py` lines 117–133 (Group B:
account/delinquency). Defaults: `anciennete_compte` 999,
booleans `False`, `taux_endettement` 0.0. -/
def eval_step2_alerts (data : Profile) : List String × List String :=
  let anc : Int := data.anciennete_compte.getD 999
  let ancAlerts : List String := if anc < 3 then [msg_anc_compte] else []
  let impAlerts : List String :=
    if data.impayes_actuels.getD false then [msg_impayes_actuels] else []
  if data.impayes_anciens.getD false then
    let ch := data.changement_employeur.getD false
    let am := data.amelioration_employeur.getD false
    let taux : ℚ := data.taux_endettement.getD 0
    if ch || am then
      if taux > 25/100 then (ancAlerts ++ impAlerts, [msg_limiter])
      else (ancAlerts ++ impAlerts, [])
    else (ancAlerts ++ impAlerts ++ [msg_pas_changement], [])
  else (ancAlerts ++ impAlerts, [])

/-- `eval_step3_alerts(data)` from `app.py` lines 136–146 (Group C:
employer). A missing `employeur_statut` is `None` in Python: it is
neither equal to the string `"Inconnu pour l'instant"` nor an instance
of `str`, so neither branch fires. -/
def eval_step3_alerts (data : Profile) : List String × List String :=
  let anc_emp : Int := data.anciennete_employeur.getD 999
  let ancAlerts : List String := if anc_emp < 3 then [msg_anc_employeur] else []
  match data.employeur_statut with
  | some statut =>
      if statut = "Inconnu pour l\x27instant" then (ancAlerts, [msg_statut_inconnu])
      else if statut.startsWith "🔴" then (ancAlerts ++ [msg_employeur_risque], [])
      else (ancAlerts, [])
  | none => (ancAlerts, [])

/-- The three rule groups, as one indexed family. -/
inductive RuleGroup
  | A
  | B
  | C
deriving DecidableEq, Repr

/-- Dispatch a rule group to its evaluator. -/
def evalGroup : RuleGroup → Profile → List String × List String
  | .A => eval_step1_alerts
  | .B => eval_step2_alerts
  | .C => eval_step3_alerts

/-! ## Final decision -/

/-- `"\n".join(f"• {m}" for m in ms)`. -/
def bulletJoin (ms : List String) : String :=
  String.intercalate "\n" (ms.map (fun m => "• " ++ m))

/-- `final_decision_text(rouges, oranges)` from `app.py` lines 151–158:
Python truthiness `if rouges:` is non-emptiness. -/
def final_decision_text (rouges oranges : List String) : String × String :=
  if rouges ≠ [] then
    ("red", "Crédit refusé pour motif(s) suivant(s) :\n" ++ bulletJoin rouges)
  else if oranges ≠ [] then
    ("orange", "Risque de refus de crédit pour motif(s) suivant(s) :\n" ++ bulletJoin oranges)
  else ("green", "Crédit accepté")

/-! ## De-duplication (`list(dict.fromkeys(xs))`, `app.py` lines 344–345) -/

/-- One pass of `dict.fromkeys`: insert each key in order, skipping keys
already seen. `seen` holds the keys inserted so far. -/
def dedup_keys_aux (seen : List String) : List String → List String
  | [] => []
  | x :: xs =>
      if x ∈ seen then dedup_keys_aux seen xs
      else x :: dedup_keys_aux (x :: seen) xs

/-- `list(dict.fromkeys(l))` : stable de-duplication keeping the first
occurrence of each message. -/
def dedup_keys (l : List String) : List String :=
  dedup_keys_aux [] l

/-- The set of keys seen after processing `l` starting from `seen`. -/
def seenAfter (seen : List String) : List String → List String
  | [] => seen
  | x :: xs =>
      if x ∈ seen then seenAfter seen xs else seenAfter (x :: seen) xs

/-! ## Step-1 pipeline (credit dates, `app.py` lines 238–239) -/

/-- Lines 238–239: `date_debut_credit = today + 15 days`;
`date_fin_credit = add_months(date_debut_credit, duree)`. -/
def date_fin_credit_of (today : Date) (duree : Int) : Date :=
  add_months (addDays today 15) duree

/-- The profile assembled by the step-1 handler (lines 253–263) for the
fields Group A consults. -/
def step1_profile (today : Date) (taux : ℚ) (type_contrat : String)
    (date_fin_cdd : Option Date) (duree : Int) : Profile :=
  { taux_endettement := some taux
    type_contrat := some type_contrat
    date_fin_cdd := date_fin_cdd
    date_fin_credit := some (date_fin_credit_of today duree) }

/-! ## Spec-side definition for the normalization refinement claim -/

/-- Modelled from the spec's words, for comparison with the code (claim
about normalization): "debt ratio … inputs > 1 are treated as
percentages and divided by 100". -/
def spec_normalized_ratio (r : ℚ) : ℚ :=
  if r > 1 then r / 100 else r

/-- Absolute month index of a date: `year * 12 + (month - 1)`. Advancing
a date by `m` months adds `m` to this index. -/
def monthsIndex (d : Date) : Nat :=
  d.year * 12 + (d.month - 1)

/-- The guard of the fixed-term-conflict rule of `eval_step1_alerts`:
contract type is `"CDD"`, both dates are known, and the contract end
date is strictly before the credit end date. -/
def cdd_fires (p : Profile) : Bool :=
  decide (p.type_contrat = some "CDD") &&
    (match p.date_fin_cdd, p.date_fin_credit with
     | some date_fin_cdd, some date_fin_credit => dateLt date_fin_cdd date_fin_credit
     | _, _ => false)

/-! # Supporting lemmas -/

/-- Membership in a conditional singleton list. -/
theorem mem_ite_singleton (x y : String) (c : Prop) [Decidable c] :
    x ∈ (if c then [y] else ([] : List String)) ↔ c ∧ x = y := by
  split_ifs with hc <;> simp [hc]

/-- The red list of Group A is the conditional debt-ratio alert followed
by the conditional fixed-term alert. -/
theorem eval_step1_red_eq (p : Profile) :
    (eval_step1_alerts p).1 =
      (if p.taux_endettement.getD 0 > 1/3 then [msg_taux] else []) ++
      (if cdd_fires p then [msg_cdd] else []) := by
  rw [eval_step1_alerts, cdd_fires]
  by_cases hc : p.type_contrat = some "CDD"
  · rcases hcdd : p.date_fin_cdd with _ | a <;>
      rcases hcred : p.date_fin_credit with _ | b <;>
      simp [hc, hcdd, hcred]
  · simp [hc]

/-- The debt-ratio red alert of Group A fires exactly on raw ratio > 1/3. -/
theorem eval_step1_taux_mem (p : Profile) :
    msg_taux ∈ (eval_step1_alerts p).1 ↔ p.taux_endettement.getD 0 > 1/3 := by
  have hne : msg_taux ≠ msg_cdd := by decide
  rw [eval_step1_red_eq]
  simp [mem_ite_singleton, hne]

/-- The fixed-term red alert of Group A fires exactly on `cdd_fires`. -/
theorem eval_step1_cdd_mem (p : Profile) :
    msg_cdd ∈ (eval_step1_alerts p).1 ↔ cdd_fires p = true := by
  have hne : msg_cdd ≠ msg_taux := by decide
  rw [eval_step1_red_eq]
  simp [mem_ite_singleton, hne]

/-- With past delinquency flagged, the orange 25%-cap alert of Group B
fires exactly when (employer changed or situation improved) and the raw
ratio exceeds 0.25. -/
theorem eval_step2_limiter_mem (p : Profile) (h : p.impayes_anciens = some true) :
    msg_limiter ∈ (eval_step2_alerts p).2 ↔
      ((p.changement_employeur.getD false || p.amelioration_employeur.getD false) = true ∧
        p.taux_endettement.getD 0 > 25/100) := by
  cases hch : p.changement_employeur.getD false <;>
    cases ham : p.amelioration_employeur.getD false <;>
    by_cases ht : p.taux_endettement.getD 0 > 25/100 <;>
    simp [eval_step2_alerts, h, hch, ham, ht]

/-- With past delinquency flagged, the red no-employer-change alert of
Group B fires exactly when both follow-up booleans are false. -/
theorem eval_step2_paschangement_mem (p : Profile) (h : p.impayes_anciens = some true) :
    msg_pas_changement ∈ (eval_step2_alerts p).1 ↔
      (p.changement_employeur.getD false = false ∧
        p.amelioration_employeur.getD false = false) := by
  have hne1 : msg_pas_changement ≠ msg_anc_compte := by decide
  have hne2 : msg_pas_changement ≠ msg_impayes_actuels := by decide
  cases hch : p.changement_employeur.getD false <;>
    cases ham : p.amelioration_employeur.getD false <;>
    by_cases ht : p.taux_endettement.getD 0 > 25/100 <;>
    simp [eval_step2_alerts, h, hch, ham, ht, mem_ite_singleton, hne1, hne2]

/-- Keys seen after a pass are the old ones plus the traversed list. -/
theorem mem_seenAfter (y : String) (l : List String) :
    ∀ seen, y ∈ seenAfter seen l ↔ y ∈ seen ∨ y ∈ l := by
  induction l with
  | nil => intro seen; simp [seenAfter]
  | cons x xs ih =>
    intro seen
    by_cases h : x ∈ seen
    · rw [seenAfter, if_pos h, ih]
      constructor
      · rintro (hs | hx)
        · exact Or.inl hs
        · exact Or.inr (List.mem_cons_of_mem x hx)
      · rintro (hs | hx)
        · exact Or.inl hs
        · rcases List.mem_cons.mp hx with rfl | hx
          · exact Or.inl h
          · exact Or.inr hx
    · rw [seenAfter, if_neg h, ih]
      simp [List.mem_cons]
      tauto

/-- A `dict.fromkeys` pass distributes over append, threading the seen set. -/
theorem dedup_keys_aux_append (l m : List String) :
    ∀ seen, dedup_keys_aux seen (l ++ m) =
      dedup_keys_aux seen l ++ dedup_keys_aux (seenAfter seen l) m := by
  induction l with
  | nil => intro seen; simp [dedup_keys_aux, seenAfter]
  | cons x xs ih =>
    intro seen
    by_cases h : x ∈ seen
    · rw [List.cons_append, dedup_keys_aux, if_pos h, dedup_keys_aux, if_pos h,
        seenAfter, if_pos h, ih]
    · rw [List.cons_append, dedup_keys_aux, if_neg h, dedup_keys_aux, if_neg h,
        seenAfter, if_neg h, ih, List.cons_append]

/-- A pass over keys that were all already seen inserts nothing. -/
theorem dedup_keys_aux_nil_of_seen (m : List String) :
    ∀ seen, (∀ y ∈ m, y ∈ seen) → dedup_keys_aux seen m = [] := by
  induction m with
  | nil => intro seen _; rfl
  | cons x xs ih =>
    intro seen h
    rw [dedup_keys_aux, if_pos (h x (List.mem_cons_self x xs))]
    exact ih seen fun y hy => h y (List.mem_cons_of_mem x hy)

/-- Membership after a pass: kept iff present and not seen before. -/
theorem mem_dedup_keys_aux (y : String) (l : List String) :
    ∀ seen, y ∈ dedup_keys_aux seen l ↔ y ∈ l ∧ y ∉ seen := by
  induction l with
  | nil => intro seen; simp [dedup_keys_aux]
  | cons x xs ih =>
    intro seen
    by_cases h : x ∈ seen
    · rw [dedup_keys_aux, if_pos h, ih]
      constructor
      · rintro ⟨hy, hs⟩
        exact ⟨List.mem_cons_of_mem x hy, hs⟩
      · rintro ⟨hy, hs⟩
        rcases List.mem_cons.mp hy with rfl | hy
        · exact absurd h hs
        · exact ⟨hy, hs⟩
    · rw [dedup_keys_aux, if_neg h]
      simp only [List.mem_cons, ih]
      constructor
      · rintro (rfl | ⟨hy, hs⟩)
        · exact ⟨Or.inl rfl, h⟩
        · exact ⟨Or.inr hy, fun hsy => hs (Or.inr hsy)⟩
      · rintro ⟨(rfl | hy), hs⟩
        · exact Or.inl rfl
        · by_cases hyx : y = x
          · exact Or.inl hyx
          · exact Or.inr ⟨hy, fun hsy => by
              rcases hsy with h1 | h2
              · exact hyx h1
              · exact hs h2⟩

/-- A `dict.fromkeys` pass is a sublist of its input (stable order). -/
theorem dedup_keys_aux_sublist (l : List String) :
    ∀ seen, (dedup_keys_aux seen l).Sublist l := by
  induction l with
  | nil => intro seen; simp [dedup_keys_aux]
  | cons x xs ih =>
    intro seen
    by_cases h : x ∈ seen
    · rw [dedup_keys_aux, if_pos h]
      exact (ih seen).cons x
    · rw [dedup_keys_aux, if_neg h]
      exact (ih (x :: seen)).cons₂ x

/-- A `dict.fromkeys` pass has no duplicate keys. -/
theorem dedup_keys_aux_nodup (l : List String) :
    ∀ seen, (dedup_keys_aux seen l).Nodup := by
  induction l with
  | nil => intro seen; simp [dedup_keys_aux]
  | cons x xs ih =>
    intro seen
    by_cases h : x ∈ seen
    · rw [dedup_keys_aux, if_pos h]
      exact ih seen
    · rw [dedup_keys_aux, if_neg h]
      refine List.nodup_cons.mpr ⟨?_, ih (x :: seen)⟩
      rw [mem_dedup_keys_aux]
      rintro ⟨-, hmem⟩
      exact hmem (List.mem_cons_self x seen)

/-- Appending a block a second time does not change the de-duplicated list. -/
theorem dedup_keys_append_self (xs ys : List String) :
    dedup_keys (xs ++ ys ++ ys) = dedup_keys (xs ++ ys) := by
  rw [dedup_keys, dedup_keys, dedup_keys_aux_append (xs ++ ys) ys,
    dedup_keys_aux_nil_of_seen ys _ ?_, List.append_nil]
  intro y hy
  rw [mem_seenAfter]
  exact Or.inr (List.mem_append_right xs hy)

/-- The fold of digit characters (codepoints ≥ 48) stays non-negative. -/
theorem digitsVal_foldl_nonneg (l : List Char) :
    ∀ acc : Int, 0 ≤ acc → (∀ c ∈ l, 48 ≤ c.toNat) →
      0 ≤ l.foldl (fun acc c => acc * 10 + ((c.toNat : Int) - ('0'.toNat : Int))) acc := by
  induction l with
  | nil => intro acc h _; simpa using h
  | cons c cs ih =>
    intro acc hacc hd
    rw [List.foldl_cons]
    refine ih _ ?_ fun c' hc' => hd c' (List.mem_cons_of_mem c hc')
    have h48 : (48 : Int) ≤ (c.toNat : Int) := by
      exact_mod_cast hd c (List.mem_cons_self c cs)
    have h0 : ('0'.toNat : Int) = 48 := rfl
    have h10 : 0 ≤ acc * 10 := by positivity
    rw [h0]
    linarith

/-- The value parsed from the kept digit characters is non-negative. -/
theorem digitsVal_digitsOf_nonneg (s : String) : 0 ≤ digitsVal (digitsOf s) := by
  refine digitsVal_foldl_nonneg _ 0 le_rfl fun c hc => ?_
  simp only [digitsOf, List.mem_filter, Bool.and_eq_true, decide_eq_true_eq] at hc
  exact hc.2.1

/-! # Claim theorems -/

/-- **C4.** Strict precedence of the aggregator `final_decision_text`:
a non-empty red list yields the refusal text carrying exactly the red
messages in order, whatever the orange list holds; an empty red list
with a non-empty orange list yields the conditional-risk text carrying
the orange messages; two empty lists yield acceptance with no messages. -/
theorem C4_aggregation_precedence (rouges oranges : List String) :
    (rouges ≠ [] →
      final_decision_text rouges oranges =
        ("red", "Crédit refusé pour motif(s) suivant(s) :\n" ++ bulletJoin rouges)) ∧
    (rouges = [] → oranges ≠ [] →
      final_decision_text rouges oranges =
        ("orange", "Risque de refus de crédit pour motif(s) suivant(s) :\n" ++ bulletJoin oranges)) ∧
    (rouges = [] → oranges = [] →
      final_decision_text rouges oranges = ("green", "Crédit accepté")) := by
  refine ⟨fun hr => ?_, fun hr ho => ?_, fun hr ho => ?_⟩
  · simp [final_decision_text, hr]
  · simp [final_decision_text, hr, ho]
  · simp [final_decision_text, hr, ho]

/-- Witness for C4 at concrete alert lists exercising all three branches. -/
theorem C4_aggregation_precedence_witness :
    final_decision_text [msg_taux] [msg_limiter] =
      ("red", "Crédit refusé pour motif(s) suivant(s) :\n" ++ bulletJoin [msg_taux]) ∧
    final_decision_text [] [msg_limiter] =
      ("orange", "Risque de refus de crédit pour motif(s) suivant(s) :\n" ++ bulletJoin [msg_limiter]) ∧
    final_decision_text [] [] = ("green", "Crédit accepté") :=
  ⟨(C4_aggregation_precedence [msg_taux] [msg_limiter]).1 (by simp),
   (C4_aggregation_precedence [] [msg_limiter]).2.1 rfl (by simp),
   (C4_aggregation_precedence [] []).2.2 rfl rfl⟩

/-- **C6.** The debt-ratio calculator returns the `(0, 0)` sentinel when
duration ≤ 0 or income ≤ 0; otherwise installment = amount / duration
and ratio = (charges + installment) / income; on income 700000, charges
250000, amount 300000, duration 12 it returns installment 25000 and
ratio 275000/700000, which exceeds 1/3. -/
theorem C6_calculator (revenu charges montant duree : Int) :
    ((duree ≤ 0 ∨ revenu ≤ 0) →
      calc_endettement_simplifie revenu charges montant duree = (0, 0)) ∧
    (0 < duree → 0 < revenu →
      calc_endettement_simplifie revenu charges montant duree =
        ((montant : ℚ) / (duree : ℚ),
          ((charges : ℚ) + (montant : ℚ) / (duree : ℚ)) / (revenu : ℚ))) ∧
    (calc_endettement_simplifie 700000 250000 300000 12 =
        (25000, 275000 / 700000) ∧
      (275000 : ℚ) / 700000 > 1 / 3) := by
  refine ⟨fun h => ?_, fun hd hr => ?_, ?_, ?_⟩
  · simp only [calc_endettement_simplifie, if_pos h]
  · rw [calc_endettement_simplifie, if_neg (by push_neg; exact ⟨hd, hr⟩)]
  · rw [calc_endettement_simplifie, if_neg (by norm_num)]
    norm_num
  · norm_num

/-- Witness for C6: both hypotheses discharged at concrete inputs. -/
theorem C6_calculator_witness :
    calc_endettement_simplifie 5 1 2 0 = (0, 0) ∧
    calc_endettement_simplifie 700000 250000 300000 12 =
      ((300000 : ℚ) / (12 : ℚ),
        ((250000 : ℚ) + (300000 : ℚ) / (12 : ℚ)) / (700000 : ℚ)) :=
  ⟨(C6_calculator 5 1 2 0).1 (Or.inl (by norm_num)),
   (C6_calculator 700000 250000 300000 12).2.1 (by norm_num) (by norm_num)⟩

/-- **C7.** `add_months`: identity for months ≤ 0; for months > 0 it
advances the absolute month index by exactly `months` (year rollover)
and clamps the day to the length of the target month; January 31, 2023
plus one month is February 28, 2023. -/
theorem C7_add_months (d : Date) (m : Int) :
    (m ≤ 0 → add_months d m = d) ∧
    (0 < m →
      monthsIndex (add_months d m) = monthsIndex d + m.toNat ∧
      (add_months d m).day =
        min d.day (monthrange (add_months d m).year (add_months d m).month)) ∧
    add_months ⟨2023, 1, 31⟩ 1 = ⟨2023, 2, 28⟩ := by
  refine ⟨fun h => ?_, fun h => ⟨?_, ?_⟩, by decide⟩
  · simp only [add_months, if_pos h]
  · rw [monthsIndex, add_months, if_neg (not_le.mpr h)]
    simp only [monthsIndex]
    omega
  · rw [add_months, if_neg (not_le.mpr h)]

/-- Witness for C7: identity at months = −2, rollover at Jan 31 + 1. -/
theorem C7_add_months_witness :
    add_months ⟨2024, 5, 10⟩ (-2) = ⟨2024, 5, 10⟩ ∧
    monthsIndex (add_months ⟨2023, 1, 31⟩ 1) = monthsIndex ⟨2023, 1, 31⟩ + 1 :=
  ⟨(C7_add_months ⟨2024, 5, 10⟩ (-2)).1 (by norm_num),
   ((C7_add_months ⟨2023, 1, 31⟩ 1).2.1 (by norm_num)).1⟩

/-- **C8.** Each rule group evaluated on a profile from which its fields
are absent emits no alerts: every absent field falls back to a neutral
default (999-month tenures, `false` delinquency flags, ratio 0,
`None` employer status and contract type) that triggers no rule. -/
theorem C8_neutral_defaults (p : Profile) :
    (p.taux_endettement = none → p.type_contrat = none →
      eval_step1_alerts p = ([], [])) ∧
    (p.anciennete_compte = none → p.impayes_actuels = none →
      p.impayes_anciens = none → eval_step2_alerts p = ([], [])) ∧
    (p.anciennete_employeur = none → p.employeur_statut = none →
      eval_step3_alerts p = ([], [])) := by
  refine ⟨fun h1 h2 => ?_, fun h1 h2 h3 => ?_, fun h1 h2 => ?_⟩
  · simp only [eval_step1_alerts, h1, h2]
    norm_num
    exact fun hc => absurd hc (by simp)
  · simp only [eval_step2_alerts, h1, h2, h3]
    norm_num
  · simp only [eval_step3_alerts, h1, h2]
    norm_num

/-- Witness for C8: the empty profile produces no alerts in any group. -/
theorem C8_neutral_defaults_witness :
    eval_step1_alerts {} = ([], []) ∧
    eval_step2_alerts {} = ([], []) ∧
    eval_step3_alerts {} = ([], []) :=
  ⟨(C8_neutral_defaults {}).1 rfl rfl,
   (C8_neutral_defaults {}).2.1 rfl rfl rfl,
   (C8_neutral_defaults {}).2.2 rfl rfl⟩

/-- **C3 counterexample.** No clamping of negative inputs exists:
income 10, charges 0, amount −100, duration 10 yields installment −10
and ratio −1, both negative, refuting "the returned installment and
ratio are always ≥ 0". -/
theorem C3_counterexample :
    calc_endettement_simplifie 10 0 (-100) 10 = (-10, -1) ∧
    (calc_endettement_simplifie 10 0 (-100) 10).1 < 0 ∧
    (calc_endettement_simplifie 10 0 (-100) 10).2 < 0 := by
  rw [calc_endettement_simplifie, if_neg (by norm_num)]
  norm_num

/-- **C3 amended.** Negative charges and amounts are *not* replaced by
zero: with duration > 0 and income > 0 the calculator returns exactly
amount / duration and (charges + amount / duration) / income, and a
negative requested amount yields a negative installment. -/
theorem C3_no_clamping (revenu charges montant duree : Int)
    (hd : 0 < duree) (hr : 0 < revenu) :
    calc_endettement_simplifie revenu charges montant duree =
      ((montant : ℚ) / (duree : ℚ),
        ((charges : ℚ) + (montant : ℚ) / (duree : ℚ)) / (revenu : ℚ)) ∧
    (montant < 0 →
      (calc_endettement_simplifie revenu charges montant duree).1 < 0) := by
  have heq : calc_endettement_simplifie revenu charges montant duree =
      ((montant : ℚ) / (duree : ℚ),
        ((charges : ℚ) + (montant : ℚ) / (duree : ℚ)) / (revenu : ℚ)) := by
    rw [calc_endettement_simplifie, if_neg (by push_neg; exact ⟨hd, hr⟩)]
  refine ⟨heq, fun hm => ?_⟩
  rw [heq]
  apply div_neg_of_neg_of_pos
  · exact_mod_cast hm
  · exact_mod_cast hd

/-- **C1 counterexample.** A supplied ratio of 20 normalizes (per the
spec) to 0.2 ≤ 1/3 and ≤ 0.25, yet the code fires both the one-third
refusal rule and the 25%-cap rule on the raw value 20: no division by
100 happens before any rule comparison. -/
theorem C1_counterexample :
    spec_normalized_ratio 20 ≤ 1/3 ∧
    msg_taux ∈ (eval_step1_alerts { taux_endettement := some 20 }).1 ∧
    msg_limiter ∈ (eval_step2_alerts { taux_endettement := some 20,
                                       impayes_anciens := some true,
                                       changement_employeur := some true }).2 := by
  refine ⟨?_, ?_, ?_⟩
  · rw [spec_normalized_ratio, if_pos (by norm_num)]
    norm_num
  · rw [eval_step1_taux_mem]
    norm_num
  · rw [eval_step2_limiter_mem _ rfl]
    norm_num

/-- **C1 amended.** The debt ratio is used by every rule exactly as
supplied, with no normalization: the one-third refusal rule fires iff
the raw ratio exceeds 1/3, and (with past delinquency and employer
change or improvement) the 25%-cap rule fires iff the raw ratio
exceeds 0.25. -/
theorem C1_raw_ratio_used (p : Profile) (r : ℚ) (h : p.taux_endettement = some r) :
    (msg_taux ∈ (eval_step1_alerts p).1 ↔ r > 1/3) ∧
    (p.impayes_anciens = some true →
      (p.changement_employeur.getD false || p.amelioration_employeur.getD false) = true →
      (msg_limiter ∈ (eval_step2_alerts p).2 ↔ r > 25/100)) := by
  constructor
  · rw [eval_step1_taux_mem, h, Option.getD_some]
  · intro h2 h3
    rw [eval_step2_limiter_mem p h2, h, Option.getD_some]
    simp [h3]

/-- Witness for C1 amended, at a profile with raw ratio 20. -/
theorem C1_raw_ratio_used_witness :
    msg_taux ∈ (eval_step1_alerts { taux_endettement := some 20,
                                    impayes_anciens := some true,
                                    changement_employeur := some true }).1 ∧
    msg_limiter ∈ (eval_step2_alerts { taux_endettement := some 20,
                                       impayes_anciens := some true,
                                       changement_employeur := some true }).2 :=
  ⟨(C1_raw_ratio_used { taux_endettement := some 20,
                        impayes_anciens := some true,
                        changement_employeur := some true } 20 rfl).1.mpr (by norm_num),
   ((C1_raw_ratio_used { taux_endettement := some 20,
                         impayes_anciens := some true,
                         changement_employeur := some true } 20 rfl).2 rfl rfl).mpr
     (by norm_num)⟩

/-- **C2 counterexample.** With requested duration 0 (≤ 0), evaluation
date 2024-01-01 and a fixed-term contract ending 2024-01-01 — before
the computed credit end date 2024-01-16 — Group A does emit the red
fixed-term-conflict alert: a duration ≤ 0 is not treated as unbounded. -/
theorem C2_counterexample :
    ((0 : Int) ≤ 0) ∧
    (eval_step1_alerts
        (step1_profile ⟨2024, 1, 1⟩ 0 "CDD" (some ⟨2024, 1, 1⟩) 0)).1 = [msg_cdd] := by
  refine ⟨le_rfl, ?_⟩
  simp only [eval_step1_alerts, step1_profile, Option.getD]
  norm_num
  decide

/-- **C2 amended.** For requested duration d ≤ 0 the computed credit end
date is the credit start date (evaluation date + 15 days) unchanged, and
the fixed-term rule fires exactly when the supplied contract end date is
strictly before that start date — not "never". -/
theorem C2_duration_nonpos (today : Date) (d : Int) (hd : d ≤ 0) :
    date_fin_credit_of today d = addDays today 15 ∧
    (∀ (taux : ℚ) (cdd : Date),
      (msg_cdd ∈ (eval_step1_alerts (step1_profile today taux "CDD" (some cdd) d)).1 ↔
        dateLt cdd (addDays today 15) = true)) := by
  have h1 : date_fin_credit_of today d = addDays today 15 := by
    rw [date_fin_credit_of, add_months, if_pos hd]
  refine ⟨h1, fun taux cdd => ?_⟩
  rw [eval_step1_cdd_mem, cdd_fires]
  simp [step1_profile, h1]

/-- Witness for C2 amended, at duration 0 on 2024-01-01. -/
theorem C2_duration_nonpos_witness :
    date_fin_credit_of ⟨2024, 1, 1⟩ 0 = addDays ⟨2024, 1, 1⟩ 15 ∧
    (msg_cdd ∈ (eval_step1_alerts
        (step1_profile ⟨2024, 1, 1⟩ 0 "CDD" (some ⟨2024, 1, 1⟩) 0)).1 ↔
      dateLt ⟨2024, 1, 1⟩ (addDays ⟨2024, 1, 1⟩ 15) = true) :=
  ⟨(C2_duration_nonpos ⟨2024, 1, 1⟩ 0 le_rfl).1,
   (C2_duration_nonpos ⟨2024, 1, 1⟩ 0 le_rfl).2 0 ⟨2024, 1, 1⟩⟩

/-- **C5.** With the past-delinquency flag set, Group B emits the orange
25%-cap alert iff (employer changed or situation improved) and the raw
ratio exceeds 0.25; it emits the red no-employer-change alert iff both
booleans are false; and in the remaining case it emits neither of the
two past-delinquency alerts. -/
theorem C5_past_delinquency_rules (p : Profile) (h : p.impayes_anciens = some true) :
    (msg_limiter ∈ (eval_step2_alerts p).2 ↔
      ((p.changement_employeur.getD false || p.amelioration_employeur.getD false) = true ∧
        p.taux_endettement.getD 0 > 25/100)) ∧
    (msg_pas_changement ∈ (eval_step2_alerts p).1 ↔
      (p.changement_employeur.getD false = false ∧
        p.amelioration_employeur.getD false = false)) ∧
    ((p.changement_employeur.getD false || p.amelioration_employeur.getD false) = true →
      ¬ p.taux_endettement.getD 0 > 25/100 →
      msg_limiter ∉ (eval_step2_alerts p).2 ∧
        msg_pas_changement ∉ (eval_step2_alerts p).1) := by
  refine ⟨eval_step2_limiter_mem p h, eval_step2_paschangement_mem p h, fun hor hnt => ⟨?_, ?_⟩⟩
  · rw [eval_step2_limiter_mem p h]
    rintro ⟨-, ht⟩
    exact hnt ht
  · rw [eval_step2_paschangement_mem p h]
    rintro ⟨hc, ha⟩
    rw [hc, ha] at hor
    exact Bool.false_ne_true hor

/-- Witness for C5 at a profile with past delinquency, employer change
and a ratio of 0.30 > 0.25. -/
theorem C5_past_delinquency_rules_witness :
    (3/10 : ℚ) > 25/100 ∧
    msg_limiter ∈ (eval_step2_alerts { taux_endettement := some (3/10),
                                       impayes_anciens := some true,
                                       changement_employeur := some true }).2 :=
  ⟨by norm_num,
   (C5_past_delinquency_rules { taux_endettement := some (3/10),
                                impayes_anciens := some true,
                                changement_employeur := some true } rfl).1.mpr
     ⟨rfl, by norm_num⟩⟩

/-- **C9.** For every rule group and profile, appending the group's
alerts to the accumulators twice and de-duplicating gives the same
reason lists — and the same final decision — as appending them once;
the de-duplicated list is a sublist of the input (first-occurrence
order, stable, not sorted) and has no duplicate message. -/
theorem C9_dedup_idempotent (g : RuleGroup) (p : Profile) (accR accO : List String) :
    dedup_keys (accR ++ (evalGroup g p).1 ++ (evalGroup g p).1) =
      dedup_keys (accR ++ (evalGroup g p).1) ∧
    dedup_keys (accO ++ (evalGroup g p).2 ++ (evalGroup g p).2) =
      dedup_keys (accO ++ (evalGroup g p).2) ∧
    final_decision_text (dedup_keys (accR ++ (evalGroup g p).1 ++ (evalGroup g p).1))
        (dedup_keys (accO ++ (evalGroup g p).2 ++ (evalGroup g p).2)) =
      final_decision_text (dedup_keys (accR ++ (evalGroup g p).1))
        (dedup_keys (accO ++ (evalGroup g p).2)) ∧
    (dedup_keys (accR ++ (evalGroup g p).1)).Sublist (accR ++ (evalGroup g p).1) ∧
    (dedup_keys (accR ++ (evalGroup g p).1)).Nodup := by
  refine ⟨dedup_keys_append_self accR (evalGroup g p).1,
    dedup_keys_append_self accO (evalGroup g p).2, ?_,
    dedup_keys_aux_sublist (accR ++ (evalGroup g p).1) [],
    dedup_keys_aux_nodup (accR ++ (evalGroup g p).1) []⟩
  rw [dedup_keys_append_self accR (evalGroup g p).1,
    dedup_keys_append_self accO (evalGroup g p).2]

/-- **C10.** `parse_fcfa` returns a non-negative value; `ok` is false
exactly when the input is `None` or holds no digit character, in which
case the value is 0; and the internal `val < 0` rejection branch is
unreachable, the parsed digit string being non-negative. -/
theorem C10_parse_fcfa_safety (s : Option String) :
    0 ≤ (parse_fcfa s).1 ∧
    ((parse_fcfa s).2 = false ↔
      s = none ∨ ∃ str, s = some str ∧ digitsOf str = []) ∧
    ((parse_fcfa s).2 = false → (parse_fcfa s).1 = 0) ∧
    (∀ str, s = some str → ¬ digitsVal (digitsOf str) < 0) := by
  cases s with
  | none =>
    refine ⟨le_rfl, ?_, fun _ => rfl, fun str hs => by cases hs⟩
    simp [parse_fcfa]
  | some str =>
    have hnn := digitsVal_digitsOf_nonneg str
    by_cases hd : digitsOf str = []
    · have heq : parse_fcfa (some str) = (0, false) := by
        simp [parse_fcfa, hd]
      refine ⟨?_, ?_, fun _ => ?_, fun str' hs => ?_⟩
      · rw [heq]
      · rw [heq]
        simp only [true_iff]
        exact Or.inr ⟨str, rfl, hd⟩
      · rw [heq]
      · cases hs
        rw [hd, digitsVal]
        norm_num
    · have heq : parse_fcfa (some str) = (digitsVal (digitsOf str), true) := by
        simp only [parse_fcfa]
        rw [if_neg hd, if_neg (not_lt.mpr hnn)]
      refine ⟨?_, ?_, ?_, fun str' hs => ?_⟩
      · rw [heq]
        exact hnn
      · rw [heq]
        simp [hd]
      · rw [heq]
        intro hfalse
        exact absurd hfalse (by simp)
      · cases hs
        exact not_lt.mpr hnn

/-- Witness for C10: valid, digit-free and `None` inputs. -/
theorem C10_parse_fcfa_safety_witness :
    0 ≤ (parse_fcfa (some "1 234,56")).1 ∧
    (parse_fcfa (some "abc")).2 = false ∧
    ¬ digitsVal (digitsOf "1 234,56") < 0 :=
  ⟨(C10_parse_fcfa_safety (some "1 234,56")).1,
   (C10_parse_fcfa_safety (some "abc")).2.1.mpr (Or.inr ⟨"abc", rfl, by decide⟩),
   (C10_parse_fcfa_safety (some "1 234,56")).2.2.2 "1 234,56" rfl⟩

/-- Witness for C3 amended, at the counterexample input. -/
theorem C3_no_clamping_witness :
    calc_endettement_simplifie 10 0 (-100) 10 =
      (((-100 : Int) : ℚ) / ((10 : Int) : ℚ),
        (((0 : Int) : ℚ) + ((-100 : Int) : ℚ) / ((10 : Int) : ℚ)) / ((10 : Int) : ℚ)) ∧
    (calc_endettement_simplifie 10 0 (-100) 10).1 < 0 :=
  ⟨(C3_no_clamping 10 0 (-100) 10 (by norm_num) (by norm_num)).1,
   (C3_no_clamping 10 0 (-100) 10 (by norm_num) (by norm_num)).2 (by norm_num)⟩

end ConsoApp
